import Mathlib

/-!
Shallow embedding of the scoring / risk / quality-gate core of the
AI-assisted Cypress test framework (TypeScript), together with theorems
checking the natural-language specification against it.

Embedded modules and their sources:
  * `RiskClassifier`          — src/src/risk/risk-classifier.ts
  * `RiskCoverageAnalyzer`    — risk-coverage-analyzer (src/unnamed/part_009)
  * `TestQualityScorer`       — test-quality-scorer (src/unnamed/part_011)
  * `ReleaseConfidenceScorer` — src/src/quality-gates/release-confidence-scorer.ts
  * `PRValidationGate`        — src/src/quality-gates/pr-validation-gate.ts
  * `RejectionTracker`        — rejection-tracker (src/unnamed/part_006)

Modelling conventions:
  * JavaScript numbers are modelled as exact rationals (`ℚ`); integer-valued
    results of `Math.round` are modelled as `ℤ`.  `Math.round` rounds half
    toward positive infinity, i.e. `⌊q + 1/2⌋`.
  * JavaScript strings are modelled as `String`; the string/regex scanning
    functions of the quality scorer are re-implemented over `List Char`
    with explicit fuel so that they are structurally recursive and
    executable by the kernel.
  * `Date` timestamps are modelled at calendar-day granularity as `ℤ`
    (day index), because the rejection tracker's trend logic only ever
    compares the date part of its timestamps.
  * JavaScript regular-expression *compilation* (`new RegExp(p, 'i')`) is a
    platform primitive that can throw on a malformed pattern; it is
    modelled as a parameter `compile : String → Option (String → Bool)`
    (`none` = the pattern is rejected by the platform).  Code paths that can
    propagate the thrown `SyntaxError` are embedded in `Except String`.
-/

/-- JavaScript `Math.round`: rounds half toward positive infinity. -/
def jsRound (q : ℚ) : ℤ := ⌊q + 1/2⌋

/-! ## String / list scanning utilities (JS semantics, executable) -/

/-- Substring containment, as JS `String.prototype.includes`. -/
def listContainsSub (p : List Char) : List Char → Bool
  | [] => p.isEmpty
  | c :: t => p.isPrefixOf (c :: t) || listContainsSub p t

/-- JS `s.includes(pat)`. -/
def strIncludes (s pat : String) : Bool := listContainsSub pat.data s.data

/-- Case-insensitive prefix test: does `p` (lower-case) match the next
characters of `s` up to ASCII case? -/
def isPrefixOfCI (p s : List Char) : Bool := p.isPrefixOf (s.map Char.toLower |>.take p.length)

/-- Count the non-overlapping, leftmost-first occurrences of the pattern `p`
in a character list, as matched by a global literal regex.  `fuel` bounds the
number of scanning steps; callers pass the length of the scanned list, which
is always sufficient for a non-empty pattern. -/
def scanCountAux (p : List Char) : Nat → List Char → Nat
  | 0, _ => 0
  | _ + 1, [] => 0
  | fuel + 1, c :: t =>
    if p.isPrefixOf (c :: t) then 1 + scanCountAux p fuel ((c :: t).drop p.length)
    else scanCountAux p fuel t

/-- Count occurrences of literal pattern `pat` in `s` (JS `s.match(/pat/g)` length). -/
def strCountOcc (s pat : String) : Nat := scanCountAux pat.data s.data.length s.data

/-- Count the non-overlapping, leftmost-first occurrences of either of two
literal patterns (JS global regex with alternation `p1|p2`). -/
def scanCount2Aux (p1 p2 : List Char) : Nat → List Char → Nat
  | 0, _ => 0
  | _ + 1, [] => 0
  | fuel + 1, c :: t =>
    if p1.isPrefixOf (c :: t) then 1 + scanCount2Aux p1 p2 fuel ((c :: t).drop p1.length)
    else if p2.isPrefixOf (c :: t) then 1 + scanCount2Aux p1 p2 fuel ((c :: t).drop p2.length)
    else scanCount2Aux p1 p2 fuel t

/-- JS whitespace for `String.prototype.trim` (common ASCII subset). -/
def isJsWhitespace (c : Char) : Bool := c == ' ' || c == '\t' || c == '\n' || c == '\r'

/-- JS `s.trim()` over a character list. -/
def trimChars (l : List Char) : List Char :=
  ((l.dropWhile isJsWhitespace).reverse.dropWhile isJsWhitespace).reverse

/-- JS `s.split('\n')` over a character list. -/
def splitLines : List Char → List (List Char)
  | [] => [[]]
  | c :: t =>
    if c == '\n' then [] :: splitLines t
    else
      match splitLines t with
      | h :: r => (c :: h) :: r
      | [] => [[c]]

/-- Characters before the first occurrence of the (non-empty) pattern `p`:
JS `s.split(p)[0]`. -/
def takeBeforeSub (p : List Char) : List Char → List Char
  | [] => []
  | c :: t => if p.isPrefixOf (c :: t) then [] else c :: takeBeforeSub p t

/-- Does some suffix of the list satisfy `f`?  This is how a JS `regex.test`
tries a match at every position (including the final empty position). -/
def anySuffix (f : List Char → Bool) : List Char → Bool
  | [] => f []
  | c :: t => f (c :: t) || anySuffix f t

/-- Three consecutive decimal digits somewhere (JS `/\d{3,}/.test`). -/
def hasRunOf3Digits : List Char → Bool
  | a :: b :: c :: t => (a.isDigit && b.isDigit && c.isDigit) || hasRunOf3Digits (b :: c :: t)
  | _ => false

/-- Remove every occurrence of `timeout` or `wait`, case-insensitively,
leftmost-first (JS `s.replace(/timeout|wait/gi, '')`). -/
def scrubTimeoutWait : Nat → List Char → List Char
  | 0, s => s
  | _ + 1, [] => []
  | fuel + 1, c :: t =>
    if isPrefixOfCI "timeout".data (c :: t) then scrubTimeoutWait fuel ((c :: t).drop 7)
    else if isPrefixOfCI "wait".data (c :: t) then scrubTimeoutWait fuel ((c :: t).drop 4)
    else c :: scrubTimeoutWait fuel t

/-- Is the character a single or double quote? -/
def isQuote (c : Char) : Bool := c == '\x27' || c == '\x22'

/-- One match attempt of the JS regex `it\(['"]([^'"]+)['"]` at the head of
the list.  On success, returns the whole matched snippet (which includes the
leading `it(`, the opening quote and the closing quote) and the remainder of
the input after the match. -/
def itDescAt : List Char → Option (List Char × List Char)
  | 'i' :: 't' :: '(' :: q :: rest =>
    if isQuote q then
      let run := rest.takeWhile (fun c => !isQuote c)
      let rest2 := rest.drop run.length
      match rest2 with
      | q2 :: tail => if run.isEmpty then none else some ('i' :: 't' :: '(' :: q :: (run ++ [q2]), tail)
      | [] => none
    else none
  | _ => none

/-- Global scan collecting all matches of `it\(['"]([^'"]+)['"]` leftmost-first
(JS `testCode.match(/it\(['"]([^'"]+)['"]/g)`). -/
def itDescScan : Nat → List Char → List (List Char)
  | 0, _ => []
  | _ + 1, [] => []
  | fuel + 1, c :: t =>
    match itDescAt (c :: t) with
    | some (m, rest) => m :: itDescScan fuel rest
    | none => itDescScan fuel t

/-- The matched `it(` description snippets of a test source, as strings. -/
def itDescriptions (s : String) : List String :=
  (itDescScan s.data.length s.data).map (fun l => String.mk l)

/-- Match attempt of `\.(class|id)\(|#|\.(?!should|and|then)` at the head. -/
def fragileSelAt (s : List Char) : Bool :=
  ".class(".data.isPrefixOf s || ".id(".data.isPrefixOf s ||
    (match s with
     | '#' :: _ => true
     | '.' :: t =>
       !("should".data.isPrefixOf t || "and".data.isPrefixOf t || "then".data.isPrefixOf t)
     | _ => false)

/-- Match attempt of `cy\.wait\(\d+\)` at the head of the list. -/
def cyWaitAt (s : List Char) : Bool :=
  "cy.wait(".data.isPrefixOf s &&
    (let rest := s.drop 8
     let digits := rest.takeWhile Char.isDigit
     !digits.isEmpty && ((rest.drop digits.length).head? == some ')'))

/-- Stable insertion used by `stableSortBy`: `x` is placed after every element
`y` of the (already sorted) list with `le y x`. -/
def insertAfterLe (le : α → α → Bool) (x : α) : List α → List α
  | [] => [x]
  | y :: t => if le y x then y :: insertAfterLe le x t else x :: y :: t

/-- Stable sort (JS `Array.prototype.sort` with a consistent comparator is
specified to be stable): elements comparing equal keep their original order. -/
def stableSortBy (le : α → α → Bool) (l : List α) : List α :=
  l.foldl (fun acc x => insertAfterLe le x acc) []

/-! ## Risk classifier — src/src/risk/risk-classifier.ts -/

/-- Risk level enum (`RiskLevel`). -/
inductive RiskLevel
  | critical
  | high
  | medium
  | low
deriving DecidableEq, Repr

/-- One weighted risk factor (`RiskFactor`). -/
structure RiskFactor where
  factor : String
  weight : ℚ
  description : String
deriving DecidableEq, Repr

/-- Result of classifying one feature (`RiskClassification`). -/
structure RiskClassification where
  featureName : String
  riskLevel : RiskLevel
  riskScore : ℤ
  riskFactors : List RiskFactor
  businessImpact : String
  technicalComplexity : String
  changeFrequency : String
deriving DecidableEq, Repr

/-- One configuration entry (`FeatureRiskConfig`); `pattern` is a regex source
string matched case-insensitively against feature names. -/
structure FeatureRiskConfig where
  name : String
  pattern : String
  riskLevel : RiskLevel
  businessImpact : String
  technicalComplexity : String
  changeFrequency : String
deriving DecidableEq, Repr

/-- Classifier configuration (`RiskConfig`). -/
structure RiskConfig where
  features : List FeatureRiskConfig
  defaultRiskLevel : RiskLevel
deriving DecidableEq, Repr

/-- The caller-supplied override context (`Partial<FeatureRiskConfig>` as used
by `classifyFeature`; absent fields are `none`). -/
structure RiskContext where
  businessImpact : Option String
  technicalComplexity : Option String
  changeFrequency : Option String
  riskLevel : Option RiskLevel
deriving DecidableEq, Repr

/-- The empty override context (`context` omitted). -/
def RiskContext.empty : RiskContext := ⟨none, none, none, none⟩

/-- JS `a || b` on an optional string, where the empty string is falsy. -/
def jsOrString (a : Option String) (b : String) : String :=
  match a with
  | some s => if s = "" then b else s
  | none => b

/-- `findMatchingConfig`: `this.config.features.find(f => new RegExp(f.pattern, 'i').test(name))`.
Compiling an entry's pattern throws `SyntaxError` when the pattern is
malformed (`compile` returns `none`); `Array.prototype.find` propagates the
exception, so the scan is embedded in `Except`. -/
def findMatchingConfig (compile : String → Option (String → Bool)) :
    List FeatureRiskConfig → String → Except String (Option FeatureRiskConfig)
  | [], _ => .ok none
  | f :: rest, featureName =>
    match compile f.pattern with
    | none => .error "SyntaxError: Invalid regular expression"
    | some test =>
      if test featureName then .ok (some f) else findMatchingConfig compile rest featureName

/-- `calculateRiskFactors`: the three fixed factors with their weights and
interpolated descriptions. -/
def calculateRiskFactors (businessImpact technicalComplexity changeFrequency : String) :
    List RiskFactor :=
  [ ⟨"Business Impact", 0.4, businessImpact ++ " impact on business operations"⟩,
    ⟨"Technical Complexity", 0.35, technicalComplexity ++ " technical complexity"⟩,
    ⟨"Change Frequency", 0.25, changeFrequency ++ " frequency of changes"⟩ ]

/-- `getImpactScore`: keyed on substrings of the factor description. -/
def getImpactScore (description : String) : ℚ :=
  if strIncludes description "critical" then 100
  else if strIncludes description "high" then 75
  else if strIncludes description "medium" then 50
  else 25

/-- `getComplexityScore`. -/
def getComplexityScore (description : String) : ℚ :=
  if strIncludes description "high" then 100
  else if strIncludes description "medium" then 60
  else 30

/-- `getFrequencyScore`. -/
def getFrequencyScore (description : String) : ℚ :=
  if strIncludes description "high" then 100
  else if strIncludes description "medium" then 60
  else 30

/-- `calculateRiskScore`: fixed 40/35/25 blend of the three factor scores,
rounded. -/
def calculateRiskScore (riskFactors : List RiskFactor) : ℤ :=
  let impactScore := getImpactScore
    (((riskFactors.find? (fun f => f.factor == "Business Impact")).map
      (fun f => f.description)).getD "")
  let complexityScore := getComplexityScore
    (((riskFactors.find? (fun f => f.factor == "Technical Complexity")).map
      (fun f => f.description)).getD "")
  let frequencyScore := getFrequencyScore
    (((riskFactors.find? (fun f => f.factor == "Change Frequency")).map
      (fun f => f.description)).getD "")
  jsRound (impactScore * 0.4 + complexityScore * 0.35 + frequencyScore * 0.25)

/-- `determineRiskLevel`: score breakpoints 85/65/40. -/
def determineRiskLevel (score : ℤ) : RiskLevel :=
  if 85 ≤ score then .critical
  else if 65 ≤ score then .high
  else if 40 ≤ score then .medium
  else .low

/-- `classifyFeature`.  A thrown regex `SyntaxError` from
`findMatchingConfig` propagates (`Except.error`). -/
def classifyFeature (compile : String → Option (String → Bool)) (config : RiskConfig)
    (featureName : String) (context : RiskContext) : Except String RiskClassification := do
  let matchedConfig ← findMatchingConfig compile config.features featureName
  let businessImpact :=
    jsOrString context.businessImpact
      (jsOrString (matchedConfig.map (fun f => f.businessImpact)) "medium")
  let technicalComplexity :=
    jsOrString context.technicalComplexity
      (jsOrString (matchedConfig.map (fun f => f.technicalComplexity)) "medium")
  let changeFrequency :=
    jsOrString context.changeFrequency
      (jsOrString (matchedConfig.map (fun f => f.changeFrequency)) "medium")
  let riskFactors := calculateRiskFactors businessImpact technicalComplexity changeFrequency
  let riskScore := calculateRiskScore riskFactors
  let riskLevel :=
    ((matchedConfig.map (fun f => f.riskLevel)).orElse (fun _ => context.riskLevel)).getD
      (determineRiskLevel riskScore)
  return {
    featureName := featureName
    riskLevel := riskLevel
    riskScore := riskScore
    riskFactors := riskFactors
    businessImpact := businessImpact
    technicalComplexity := technicalComplexity
    changeFrequency := changeFrequency
  }

/-- A minimal stand-in for the JavaScript `RegExp` platform primitive used by
concrete test inputs: the lone bracket `[` is an invalid pattern (as in JS,
where `new RegExp('[')` throws a `SyntaxError`); every other pattern used in
tests is treated as a case-insensitive literal-substring matcher. -/
def jsRegexCompileStub (p : String) : Option (String → Bool) :=
  if p = "[" then none
  else some (fun s => listContainsSub (p.data.map Char.toLower) (s.data.map Char.toLower))

/-! ## Risk coverage analyzer — risk-coverage-analyzer (src/unnamed/part_009) -/

/-- One feature together with its classification and tested flag
(`FeatureTestMapping`). -/
structure FeatureTestMapping where
  featureName : String
  riskClassification : RiskClassification
  testFiles : List String
  isTested : Bool
deriving DecidableEq, Repr

/-- Per-risk-level coverage (`RiskCoverage`). -/
structure RiskCoverage where
  totalFeatures : ℕ
  testedFeatures : ℕ
  coveragePercentage : ℚ
  untestedFeatures : List String
deriving DecidableEq, Repr

/-- Gap priority (`'urgent' | 'high' | 'medium' | 'low'`). -/
inductive GapPriority
  | urgent
  | high
  | medium
  | low
deriving DecidableEq, Repr

/-- One coverage gap (`CoverageGap`). -/
structure CoverageGap where
  featureName : String
  riskLevel : RiskLevel
  riskScore : ℤ
  priority : GapPriority
  recommendation : String
deriving DecidableEq, Repr

/-- Aggregate coverage metrics (`CoverageMetrics`); the
`Record<RiskLevel, RiskCoverage>` is a function out of `RiskLevel`. -/
structure CoverageMetrics where
  totalFeatures : ℕ
  testedFeatures : ℕ
  coverageByRisk : RiskLevel → RiskCoverage
  overallCoverage : ℚ
  riskWeightedCoverage : ℤ
  gaps : List CoverageGap

/-- `calculateRiskLevelCoverage`. -/
def calculateRiskLevelCoverage (mappings : List FeatureTestMapping) (riskLevel : RiskLevel) :
    RiskCoverage :=
  let featuresAtRisk := mappings.filter (fun m => m.riskClassification.riskLevel == riskLevel)
  let testedAtRisk := featuresAtRisk.filter (fun m => m.isTested)
  let untestedFeatures := (featuresAtRisk.filter (fun m => !m.isTested)).map
    (fun m => m.featureName)
  { totalFeatures := featuresAtRisk.length
    testedFeatures := testedAtRisk.length
    coveragePercentage :=
      if featuresAtRisk.length > 0 then
        ((testedAtRisk.length : ℚ) / (featuresAtRisk.length : ℚ)) * 100
      else 0
    untestedFeatures := untestedFeatures }

/-- `calculateRiskWeightedCoverage`: fixed weights 0.4/0.3/0.2/0.1. -/
def calculateRiskWeightedCoverage (coverageByRisk : RiskLevel → RiskCoverage) : ℤ :=
  jsRound
    ((coverageByRisk .critical).coveragePercentage * 0.4 +
     (coverageByRisk .high).coveragePercentage * 0.3 +
     (coverageByRisk .medium).coveragePercentage * 0.2 +
     (coverageByRisk .low).coveragePercentage * 0.1)

/-- `determinePriority`. -/
def determinePriority (riskLevel : RiskLevel) (riskScore : ℤ) : GapPriority :=
  if riskLevel = .critical ∨ 90 ≤ riskScore then .urgent
  else if riskLevel = .high ∨ 70 ≤ riskScore then .high
  else if riskLevel = .medium ∨ 50 ≤ riskScore then .medium
  else .low

/-- `generateRecommendation` (fixed text per risk level). -/
def generateGapRecommendation (feature : FeatureTestMapping) : String :=
  match feature.riskClassification.riskLevel with
  | .critical =>
    "URGENT: Create comprehensive test suite immediately. This feature is mission-critical."
  | .high =>
    "HIGH PRIORITY: Add test coverage as soon as possible. Important for system stability."
  | .medium => "MEDIUM PRIORITY: Add test coverage in the next sprint."
  | .low => "LOW PRIORITY: Consider adding basic test coverage when time permits."

/-- Numeric sort key used by `identifyCoverageGaps`
(`priorityOrder = { urgent: 0, high: 1, medium: 2, low: 3 }`). -/
def gapPriorityOrder : GapPriority → ℕ
  | .urgent => 0
  | .high => 1
  | .medium => 2
  | .low => 3

/-- `identifyCoverageGaps`: one gap per untested feature, stably sorted by
ascending priority order. -/
def identifyCoverageGaps (mappings : List FeatureTestMapping) : List CoverageGap :=
  let untestedFeatures := mappings.filter (fun m => !m.isTested)
  stableSortBy (fun a b => gapPriorityOrder a.priority ≤ gapPriorityOrder b.priority)
    (untestedFeatures.map (fun feature =>
      { featureName := feature.featureName
        riskLevel := feature.riskClassification.riskLevel
        riskScore := feature.riskClassification.riskScore
        priority := determinePriority feature.riskClassification.riskLevel
          feature.riskClassification.riskScore
        recommendation := generateGapRecommendation feature }))

/-- `analyzeCoverage`. -/
def analyzeCoverage (mappings : List FeatureTestMapping) : CoverageMetrics :=
  let totalFeatures := mappings.length
  let testedFeatures := (mappings.filter (fun m => m.isTested)).length
  let overallCoverage : ℚ :=
    if totalFeatures > 0 then ((testedFeatures : ℚ) / (totalFeatures : ℚ)) * 100 else 0
  let coverageByRisk : RiskLevel → RiskCoverage := fun lvl =>
    calculateRiskLevelCoverage mappings lvl
  { totalFeatures := totalFeatures
    testedFeatures := testedFeatures
    coverageByRisk := coverageByRisk
    overallCoverage := overallCoverage
    riskWeightedCoverage := calculateRiskWeightedCoverage coverageByRisk
    gaps := identifyCoverageGaps mappings }

/-! ## Test quality scorer — test-quality-scorer (src/unnamed/part_011) -/

/-- Issue severity (`'error' | 'warning' | 'info'`). -/
inductive IssueSeverity
  | error
  | warning
  | info
deriving DecidableEq, Repr

/-- One scoring issue (`QualityIssue`; the optional `line` field is never set
by the scorer and is omitted). -/
structure QualityIssue where
  severity : IssueSeverity
  category : String
  message : String
deriving DecidableEq, Repr

/-- The quality vector (`QualityMetrics`). -/
structure QualityMetrics where
  syntaxScore : ℤ
  coverageScore : ℤ
  assertionScore : ℤ
  maintainabilityScore : ℤ
  bestPracticesScore : ℤ
  overallScore : ℤ
  issues : List QualityIssue
deriving DecidableEq, Repr

/-- `checkSyntax` (returns the sub-score and the issues it appends). -/
def checkSyntaxOf (testCode : String) : ℤ × List QualityIssue :=
  let issues1 : List QualityIssue :=
    if !(strIncludes testCode "describe(") then
      [⟨.error, "syntax", "Missing describe block"⟩]
    else []
  let d1 : ℤ := if !(strIncludes testCode "describe(") then 30 else 0
  let issues2 : List QualityIssue :=
    if !(strIncludes testCode "it(") then
      [⟨.error, "syntax", "Missing it/test block"⟩]
    else []
  let d2 : ℤ := if !(strIncludes testCode "it(") then 30 else 0
  let singleQuotes := testCode.data.count '\x27'
  let doubleQuotes := testCode.data.count '\x22'
  let issues3 : List QualityIssue :=
    if singleQuotes > 0 ∧ doubleQuotes > 0 then
      [⟨.warning, "syntax", "Inconsistent quote usage"⟩]
    else []
  let d3 : ℤ := if singleQuotes > 0 ∧ doubleQuotes > 0 then 5 else 0
  let lines := splitLines testCode.data
  let codeLines := lines.filter (fun l => !(trimChars l).isEmpty && !("//".data.isPrefixOf (trimChars l)))
  let linesWithSemicolon := codeLines.filter (fun l =>
    (trimChars l).getLast? == some ';' || (trimChars l).getLast? == some '\x7b' ||
      (trimChars l).getLast? == some '\x7d')
  let issues4 : List QualityIssue :=
    if 2 * linesWithSemicolon.length < codeLines.length then
      [⟨.info, "syntax", "Missing semicolons in some statements"⟩]
    else []
  let d4 : ℤ := if 2 * linesWithSemicolon.length < codeLines.length then 5 else 0
  (max 0 (100 - d1 - d2 - d3 - d4), issues1 ++ issues2 ++ issues3 ++ issues4)

/-- `checkCoverage`. -/
def checkCoverageOf (testCode : String) : ℤ × List QualityIssue :=
  let itBlocks := strCountOcc testCode "it("
  let issues1 : List QualityIssue :=
    if itBlocks < 2 then
      [⟨.warning, "coverage", "Only one test case found. Consider adding more scenarios."⟩]
    else []
  let d1 : ℤ := if itBlocks < 2 then 20 else 0
  let lower := String.mk (testCode.data.map Char.toLower)
  let hasEdgeCases :=
    strIncludes lower "edge" || strIncludes lower "boundary" || strIncludes lower "limit" ||
    strIncludes lower "empty" || strIncludes lower "null" || strIncludes lower "undefined" ||
    strIncludes lower "invalid"
  let issues2 : List QualityIssue :=
    if !hasEdgeCases then [⟨.warning, "coverage", "No edge case testing detected"⟩] else []
  let d2 : ℤ := if !hasEdgeCases then 15 else 0
  let hasErrorHandling :=
    strIncludes lower "error" || strIncludes lower "fail" || strIncludes lower "reject" ||
    strIncludes lower "catch" || strIncludes lower "should.not"
  let issues3 : List QualityIssue :=
    if !hasErrorHandling then [⟨.info, "coverage", "No error handling scenarios found"⟩] else []
  let d3 : ℤ := if !hasErrorHandling then 10 else 0
  let hasSetup := strIncludes testCode "beforeEach" || strIncludes testCode "before("
  let issues4 : List QualityIssue :=
    if !hasSetup then [⟨.info, "coverage", "No setup hooks (beforeEach) found"⟩] else []
  let d4 : ℤ := if !hasSetup then 5 else 0
  (max 0 (100 - d1 - d2 - d3 - d4), issues1 ++ issues2 ++ issues3 ++ issues4)

/-- `checkAssertions`. -/
def checkAssertionsOf (testCode : String) : ℤ × List QualityIssue :=
  let assertions := scanCount2Aux ".should(".data ".expect(".data testCode.data.length testCode.data
  let itBlocks := strCountOcc testCode "it("
  let issues1 : List QualityIssue :=
    if assertions = 0 then [⟨.error, "assertions", "No assertions found in test"⟩]
    else if assertions < itBlocks then
      [⟨.warning, "assertions", "Some test cases may be missing assertions"⟩]
    else []
  let d1 : ℤ := if assertions = 0 then 50 else if assertions < itBlocks then 20 else 0
  let hasWeakAssertions :=
    strIncludes testCode "should(\x27exist\x27)" || strIncludes testCode "should(\x27be.visible\x27)"
  let hasStrongAssertions :=
    strIncludes testCode "should(\x27equal\x27" || strIncludes testCode "should(\x27contain\x27" ||
      strIncludes testCode "should(\x27have.length\x27"
  let issues2 : List QualityIssue :=
    if hasWeakAssertions ∧ ¬hasStrongAssertions then
      [⟨.warning, "assertions",
        "Only weak assertions found. Consider adding more specific assertions."⟩]
    else []
  let d2 : ℤ := if hasWeakAssertions ∧ ¬hasStrongAssertions then 15 else 0
  let issues3 : List QualityIssue :=
    if assertions < 2 * max itBlocks 1 then
      [⟨.info, "assertions", "Consider adding more assertions per test case"⟩]
    else []
  let d3 : ℤ := if assertions < 2 * max itBlocks 1 then 10 else 0
  (max 0 (100 - d1 - d2 - d3), issues1 ++ issues2 ++ issues3)

/-- The info issue recorded when some `it(` description is too short. -/
def shortDescriptionIssue : QualityIssue :=
  ⟨.info, "maintainability", "Some test descriptions are too short"⟩

/-- `checkMaintainability`.  Note that the description-length check compares
the length of each whole regex match (`it(` plus quotes plus description)
against 20, not the length of the description text itself. -/
def checkMaintainabilityOf (testCode : String) : ℤ × List QualityIssue :=
  let commentLines := strCountOcc testCode "//"
  let totalLines := (splitLines testCode.data).length
  let issues1 : List QualityIssue :=
    if 10 * commentLines < totalLines then
      [⟨.info, "maintainability", "Consider adding more comments for clarity"⟩]
    else []
  let d1 : ℤ := if 10 * commentLines < totalLines then 10 else 0
  let hasMagicNumbers := hasRunOf3Digits (scrubTimeoutWait testCode.data.length testCode.data)
  let issues2 : List QualityIssue :=
    if hasMagicNumbers then
      [⟨.warning, "maintainability", "Magic numbers detected. Consider using constants."⟩]
    else []
  let d2 : ℤ := if hasMagicNumbers then 15 else 0
  let hasHardcodedUrls := strIncludes testCode "http://" || strIncludes testCode "https://"
  let issues3 : List QualityIssue :=
    if hasHardcodedUrls then
      [⟨.warning, "maintainability",
        "Hardcoded URLs found. Use baseUrl or environment variables."⟩]
    else []
  let d3 : ℤ := if hasHardcodedUrls then 15 else 0
  let descriptions := itDescriptions testCode
  let hasGoodDescriptions := descriptions.all (fun d => d.length > 20)
  let issues4 : List QualityIssue := if !hasGoodDescriptions then [shortDescriptionIssue] else []
  let d4 : ℤ := if !hasGoodDescriptions then 5 else 0
  (max 0 (100 - d1 - d2 - d3 - d4), issues1 ++ issues2 ++ issues3 ++ issues4)

/-- `checkBestPractices`. -/
def checkBestPracticesOf (testCode : String) : ℤ × List QualityIssue :=
  let hasDataTestId := strIncludes testCode "data-testid"
  let hasFragileSelectors := anySuffix fragileSelAt testCode.data
  let issues1 : List QualityIssue :=
    if ¬hasDataTestId ∧ hasFragileSelectors then
      [⟨.warning, "best-practices", "Using fragile selectors. Prefer data-testid attributes."⟩]
    else []
  let d1 : ℤ := if ¬hasDataTestId ∧ hasFragileSelectors then 20 else 0
  let hasWait := anySuffix cyWaitAt testCode.data
  let issues2 : List QualityIssue :=
    if hasWait then
      [⟨.warning, "best-practices", "Hard waits detected. Use implicit waits or assertions instead."⟩]
    else []
  let d2 : ℤ := if hasWait then 15 else 0
  let hasCustomCommands :=
    strIncludes testCode "cy.login" || strIncludes testCode "cy.addToCart" ||
      strIncludes testCode "cy.logout"
  let hasRepetitiveCode := strCountOcc testCode "cy.get" + 1 > 10
  let issues3 : List QualityIssue :=
    if ¬hasCustomCommands ∧ hasRepetitiveCode then
      [⟨.info, "best-practices", "Consider using custom commands for repetitive actions"⟩]
    else []
  let d3 : ℤ := if ¬hasCustomCommands ∧ hasRepetitiveCode then 10 else 0
  let beforeDescribe := takeBeforeSub "describe".data testCode.data
  let hasSharedState :=
    listContainsSub "let ".data beforeDescribe || listContainsSub "var ".data beforeDescribe
  let issues4 : List QualityIssue :=
    if hasSharedState then
      [⟨.warning, "best-practices", "Shared state detected. Ensure proper test isolation."⟩]
    else []
  let d4 : ℤ := if hasSharedState then 15 else 0
  (max 0 (100 - d1 - d2 - d3 - d4), issues1 ++ issues2 ++ issues3 ++ issues4)

/-- `scoreTest`: the five checks in order, the issue list in append order, and
the weighted rounded overall score. -/
def scoreTest (testCode : String) : QualityMetrics :=
  let syntaxRes := checkSyntaxOf testCode
  let coverageRes := checkCoverageOf testCode
  let assertionRes := checkAssertionsOf testCode
  let maintainabilityRes := checkMaintainabilityOf testCode
  let bestPracticesRes := checkBestPracticesOf testCode
  let overallScore := jsRound
    ((syntaxRes.1 : ℚ) * 0.20 + (coverageRes.1 : ℚ) * 0.25 + (assertionRes.1 : ℚ) * 0.25 +
     (maintainabilityRes.1 : ℚ) * 0.15 + (bestPracticesRes.1 : ℚ) * 0.15)
  { syntaxScore := syntaxRes.1
    coverageScore := coverageRes.1
    assertionScore := assertionRes.1
    maintainabilityScore := maintainabilityRes.1
    bestPracticesScore := bestPracticesRes.1
    overallScore := overallScore
    issues := syntaxRes.2 ++ coverageRes.2 ++ assertionRes.2 ++ maintainabilityRes.2 ++
      bestPracticesRes.2 }

/-! ## Release confidence scorer — src/src/quality-gates/release-confidence-scorer.ts -/

/-- Component status (`'excellent' | 'good' | 'fair' | 'poor'`). -/
inductive ComponentStatus
  | excellent
  | good
  | fair
  | poor
deriving DecidableEq, Repr

/-- Display form of a component status (the TS enum value is the string). -/
def ComponentStatus.toDisplay : ComponentStatus → String
  | .excellent => "excellent"
  | .good => "good"
  | .fair => "fair"
  | .poor => "poor"

/-- One weighted component (`ComponentScore`). -/
structure ComponentScore where
  score : ℤ
  weight : ℚ
  weightedScore : ℚ
  status : ComponentStatus
deriving DecidableEq, Repr

/-- The four components (`ConfidenceComponents`). -/
structure ConfidenceComponents where
  testPassRate : ComponentScore
  riskCoverage : ComponentScore
  testQuality : ComponentScore
  humanValidationRate : ComponentScore
deriving DecidableEq, Repr

/-- Release recommendation tier (`ReleaseRecommendation`). -/
inductive ReleaseRecommendation
  | readyToRelease
  | proceedWithCaution
  | notRecommended
  | blocked
deriving DecidableEq, Repr

/-- The confidence score record (`ReleaseConfidenceScore`; the `calculatedAt`
wall-clock field is omitted from the embedding). -/
structure ReleaseConfidenceScore where
  overallScore : ℤ
  components : ConfidenceComponents
  recommendation : ReleaseRecommendation
  details : String
deriving DecidableEq, Repr

/-- Aggregate test-run results (`TestResults`). -/
structure TestResults where
  totalTests : ℕ
  passedTests : ℕ
  failedTests : ℕ
  skippedTests : ℕ
deriving DecidableEq, Repr

/-- Human-validation counters (`ValidationStats`). -/
structure ValidationStats where
  totalValidations : ℕ
  approvedTests : ℕ
  rejectedTests : ℕ
  autoApprovedTests : ℕ
deriving DecidableEq, Repr

/-- Scorer input (`ReleaseConfidenceInput`). -/
structure ReleaseConfidenceInput where
  testResults : TestResults
  coverageMetrics : CoverageMetrics
  qualityMetrics : List QualityMetrics
  validationStats : ValidationStats

/-- `getStatus`: thresholds excellent 90 / good 75 / fair 60. -/
def getStatus (score : ℤ) : ComponentStatus :=
  if 90 ≤ score then .excellent
  else if 75 ≤ score then .good
  else if 60 ≤ score then .fair
  else .poor

/-- `calculateTestPassRate` (weight 0.4). -/
def calculateTestPassRate (results : TestResults) : ComponentScore :=
  let passRate : ℚ :=
    if results.totalTests > 0 then
      ((results.passedTests : ℚ) / (results.totalTests : ℚ)) * 100
    else 0
  let score := jsRound passRate
  { score := score
    weight := 0.4
    weightedScore := (score : ℚ) * 0.4
    status := getStatus score }

/-- `calculateRiskCoverage` (weight 0.3): uses `riskWeightedCoverage` directly. -/
def calculateRiskCoverage (metrics : CoverageMetrics) : ComponentScore :=
  let score := metrics.riskWeightedCoverage
  { score := score
    weight := 0.3
    weightedScore := (score : ℚ) * 0.3
    status := getStatus score }

/-- `calculateTestQuality` (weight 0.2): average of the supplied overall
scores, or the poor/zero default for an empty list. -/
def calculateTestQuality (qualityMetrics : List QualityMetrics) : ComponentScore :=
  if qualityMetrics.length = 0 then
    { score := 0, weight := 0.2, weightedScore := 0, status := .poor }
  else
    let avgQuality : ℚ :=
      ((qualityMetrics.map (fun m => m.overallScore)).sum : ℤ) / (qualityMetrics.length : ℚ)
    let score := jsRound avgQuality
    { score := score
      weight := 0.2
      weightedScore := (score : ℚ) * 0.2
      status := getStatus score }

/-- `calculateHumanValidationRate` (weight 0.1): a perfect score when no
validations have occurred. -/
def calculateHumanValidationRate (stats : ValidationStats) : ComponentScore :=
  if stats.totalValidations = 0 then
    { score := 100, weight := 0.1, weightedScore := 100 * 0.1, status := .excellent }
  else
    let validationRate : ℚ := ((stats.approvedTests : ℚ) / (stats.totalValidations : ℚ)) * 100
    let score := jsRound validationRate
    { score := score
      weight := 0.1
      weightedScore := (score : ℚ) * 0.1
      status := getStatus score }

/-- `determineRecommendation`: the blocking overrides are evaluated before the
overall-score tiering. -/
def determineRecommendation (overallScore : ℤ) (components : ConfidenceComponents) :
    ReleaseRecommendation :=
  if components.testPassRate.score < 80 then .blocked
  else if components.riskCoverage.score < 70 then .blocked
  else if 85 ≤ overallScore then .readyToRelease
  else if 70 ≤ overallScore then .proceedWithCaution
  else if 60 ≤ overallScore then .notRecommended
  else .blocked

/-- `generateDetails`. -/
def generateDetails (components : ConfidenceComponents) : String :=
  "Test Pass Rate: " ++ toString components.testPassRate.score ++ "% (" ++
    components.testPassRate.status.toDisplay ++ ")" ++ "\n" ++
  "Risk Coverage: " ++ toString components.riskCoverage.score ++ "/100 (" ++
    components.riskCoverage.status.toDisplay ++ ")" ++ "\n" ++
  "Test Quality: " ++ toString components.testQuality.score ++ "/100 (" ++
    components.testQuality.status.toDisplay ++ ")" ++ "\n" ++
  "Human Validation: " ++ toString components.humanValidationRate.score ++ "% (" ++
    components.humanValidationRate.status.toDisplay ++ ")"

/-- `calculateConfidence`. -/
def calculateConfidence (input : ReleaseConfidenceInput) : ReleaseConfidenceScore :=
  let testPassRate := calculateTestPassRate input.testResults
  let riskCoverage := calculateRiskCoverage input.coverageMetrics
  let testQuality := calculateTestQuality input.qualityMetrics
  let humanValidationRate := calculateHumanValidationRate input.validationStats
  let overallScore := jsRound
    (testPassRate.weightedScore + riskCoverage.weightedScore + testQuality.weightedScore +
      humanValidationRate.weightedScore)
  let components : ConfidenceComponents :=
    { testPassRate := testPassRate
      riskCoverage := riskCoverage
      testQuality := testQuality
      humanValidationRate := humanValidationRate }
  { overallScore := overallScore
    components := components
    recommendation := determineRecommendation overallScore components
    details := generateDetails components }

/-! ## PR validation gate — src/src/quality-gates/pr-validation-gate.ts -/

/-- Gate severity (`'critical' | 'high' | 'medium' | 'low'`). -/
inductive GateSeverity
  | critical
  | high
  | medium
  | low
deriving DecidableEq, Repr

/-- One gate check result (`QualityGateResult`). -/
structure QualityGateResult where
  gateName : String
  passed : Bool
  score : ℤ
  threshold : ℤ
  message : String
  severity : GateSeverity
deriving DecidableEq, Repr

/-- The PR validation outcome (`PRValidationResult`). -/
structure PRValidationResult where
  overallPassed : Bool
  gates : List QualityGateResult
  confidence : ReleaseConfidenceScore
  blockers : List String
  warnings : List String
  summary : String
deriving DecidableEq, Repr

/-- `validateTestPassRate` (critical, threshold 80). -/
def validateTestPassRateGate (score threshold : ℤ) : QualityGateResult :=
  let passed := decide (threshold ≤ score)
  { gateName := "Test Pass Rate"
    passed := passed
    score := score
    threshold := threshold
    message :=
      if passed then
        "✅ Test pass rate (" ++ toString score ++ "%) meets threshold (" ++
          toString threshold ++ "%)"
      else
        "❌ Test pass rate (" ++ toString score ++ "%) below threshold (" ++
          toString threshold ++ "%)"
    severity := .critical }

/-- `validateRiskCoverage` (critical, threshold 80). -/
def validateRiskCoverageGate (score threshold : ℤ) : QualityGateResult :=
  let passed := decide (threshold ≤ score)
  { gateName := "Risk Coverage"
    passed := passed
    score := score
    threshold := threshold
    message :=
      if passed then
        "✅ Risk coverage (" ++ toString score ++ "/100) meets threshold (" ++
          toString threshold ++ "/100)"
      else
        "❌ Risk coverage (" ++ toString score ++ "/100) below threshold (" ++
          toString threshold ++ "/100)"
    severity := .critical }

/-- `validateTestQuality` (high, threshold 70). -/
def validateTestQualityGate (score threshold : ℤ) : QualityGateResult :=
  let passed := decide (threshold ≤ score)
  { gateName := "Test Quality"
    passed := passed
    score := score
    threshold := threshold
    message :=
      if passed then
        "✅ Test quality (" ++ toString score ++ "/100) meets threshold (" ++
          toString threshold ++ "/100)"
      else
        "⚠️ Test quality (" ++ toString score ++ "/100) below threshold (" ++
          toString threshold ++ "/100)"
    severity := .high }

/-- `validateOverallConfidence` (high, threshold 75). -/
def validateOverallConfidenceGate (score threshold : ℤ) : QualityGateResult :=
  let passed := decide (threshold ≤ score)
  { gateName := "Overall Confidence"
    passed := passed
    score := score
    threshold := threshold
    message :=
      if passed then
        "✅ Release confidence (" ++ toString score ++ "/100) meets threshold (" ++
          toString threshold ++ "/100)"
      else
        "⚠️ Release confidence (" ++ toString score ++ "/100) below threshold (" ++
          toString threshold ++ "/100)"
    severity := .high }

/-- `generateSummary`. -/
def generateGateSummary (gates : List QualityGateResult) (overallPassed : Bool) : String :=
  let passedCount := (gates.filter (fun g => g.passed)).length
  let totalCount := gates.length
  if overallPassed then
    "✅ All quality gates passed (" ++ toString passedCount ++ "/" ++ toString totalCount ++ ")"
  else
    "❌ " ++ toString (totalCount - passedCount) ++ " quality gate(s) failed (" ++
      toString passedCount ++ "/" ++ toString totalCount ++ " passed)"

/-- `PRValidationGate.validate` (fixed thresholds 80/80/70/75). -/
def prValidate (confidence : ReleaseConfidenceScore) : PRValidationResult :=
  let gates : List QualityGateResult :=
    [ validateTestPassRateGate confidence.components.testPassRate.score 80,
      validateRiskCoverageGate confidence.components.riskCoverage.score 80,
      validateTestQualityGate confidence.components.testQuality.score 70,
      validateOverallConfidenceGate confidence.overallScore 75 ]
  let criticalGates := gates.filter (fun g => g.severity == .critical)
  let failedCriticalGates := criticalGates.filter (fun g => !g.passed)
  let overallPassed := failedCriticalGates.length == 0
  let blockers := (gates.filter (fun g => !g.passed && g.severity == .critical)).map
    (fun g => g.message)
  let warnings := (gates.filter (fun g => !g.passed && g.severity != .critical)).map
    (fun g => g.message)
  { overallPassed := overallPassed
    gates := gates
    confidence := confidence
    blockers := blockers
    warnings := warnings
    summary := generateGateSummary gates overallPassed }

/-! ## Rejection tracker — rejection-tracker (src/unnamed/part_006) -/

/-- Rejection reason enum (`RejectionReason`, 10 values, in source order). -/
inductive RejectionReason
  | incorrectAssertions
  | missingEdgeCases
  | poorSelectors
  | syntaxErrors
  | incompleteCoverage
  | poorMaintainability
  | notAlignedWithRequirements
  | securityConcerns
  | performanceIssues
  | other
deriving DecidableEq, Repr

/-- The ten reasons in the insertion order of the `rejectionsByReason` object
literal (this order seeds `Object.entries`). -/
def rejectionReasonOrder : List RejectionReason :=
  [.incorrectAssertions, .missingEdgeCases, .poorSelectors, .syntaxErrors,
   .incompleteCoverage, .poorMaintainability, .notAlignedWithRequirements,
   .securityConcerns, .performanceIssues, .other]

/-- One review decision (`ValidationDecision` of validation-workflow.ts);
`reviewedAt` is the calendar day of the decision. -/
structure ValidationDecision where
  testName : String
  approved : Bool
  rejectionReason : Option RejectionReason
  reviewerComments : Option String
  reviewedAt : ℤ
  reviewedBy : String
deriving DecidableEq, Repr

/-- One persisted rejection record (`RejectionRecord`); `timestamp` is the
calendar day of the rejection. -/
structure RejectionRecord where
  testName : String
  reason : RejectionReason
  comments : String
  timestamp : ℤ
  reviewer : String
deriving DecidableEq, Repr

/-- One day of the trend series (`TrendDataPoint`); `date` is the calendar
day the bucket covers. -/
structure TrendDataPoint where
  date : ℤ
  rejectionCount : ℕ
  approvalCount : ℕ
  rejectionRate : ℚ
deriving DecidableEq, Repr

/-- One aggregated rejection pattern (`RejectionPattern`). -/
structure RejectionPattern where
  reason : RejectionReason
  count : ℕ
  percentage : ℚ
  examples : List String
deriving DecidableEq, Repr

/-- The derived statistics (`RejectionStats`); the
`Record<RejectionReason, number>` is a function out of `RejectionReason`. -/
structure RejectionStats where
  totalRejections : ℕ
  rejectionsByReason : RejectionReason → ℕ
  rejectionRate : ℚ
  commonPatterns : List RejectionPattern
  trendData : List TrendDataPoint

/-- `calculateTrendData`: one bucket per calendar day for the preceding 30
days (the loop runs `i = 29 … 0`, so buckets are pushed oldest first); only
the session decisions are counted — the historical `records` argument is
accepted but never read by the loop, exactly as in the source. -/
def calculateTrendData (decisions : List ValidationDecision)
    (records : List RejectionRecord) (today : ℤ) : List TrendDataPoint :=
  (List.range 30).map (fun j =>
    let i : ℕ := 29 - j
    let date := today - (i : ℤ)
    let dayDecisions := decisions.filter (fun d => d.reviewedAt == date)
    let rejectionCount := (dayDecisions.filter (fun d => !d.approved)).length
    let approvalCount := (dayDecisions.filter (fun d => d.approved)).length
    let total := dayDecisions.length
    { date := date
      rejectionCount := rejectionCount
      approvalCount := approvalCount
      rejectionRate :=
        if total > 0 then ((rejectionCount : ℚ) / (total : ℚ)) * 100 else 0 })

/-- The pattern entry built for one reason by `calculateStats`. -/
def mkRejectionPattern (records : List RejectionRecord) (totalRejections : ℕ)
    (reason : RejectionReason) : RejectionPattern :=
  let count := (records.filter (fun r => r.reason == reason)).length
  { reason := reason
    count := count
    percentage :=
      if totalRejections > 0 then ((count : ℚ) / (totalRejections : ℚ)) * 100 else 0
    examples := ((records.filter (fun r => r.reason == reason)).take 3).map
      (fun r => r.comments) }

/-- `calculateStats` (with the historical records passed explicitly, as via
the `historicalRecords` parameter; `today` is the current calendar day). -/
def calculateStats (decisions : List ValidationDecision)
    (records : List RejectionRecord) (today : ℤ) : RejectionStats :=
  let totalDecisions := decisions.length
  let rejectedDecisions := decisions.filter (fun d => !d.approved)
  let totalRejections := rejectedDecisions.length
  let rejectionRate : ℚ :=
    if totalDecisions > 0 then ((totalRejections : ℚ) / (totalDecisions : ℚ)) * 100 else 0
  let rejectionsByReason : RejectionReason → ℕ := fun reason =>
    (records.filter (fun r => r.reason == reason)).length
  let commonPatterns :=
    stableSortBy (fun a b => b.count ≤ a.count)
      ((rejectionReasonOrder.map (mkRejectionPattern records totalRejections)).filter
        (fun p => p.count > 0))
  { totalRejections := totalRejections
    rejectionsByReason := rejectionsByReason
    rejectionRate := rejectionRate
    commonPatterns := commonPatterns
    trendData := calculateTrendData decisions records today }

/-! ## Concrete inputs used by witnesses and counterexamples -/

/-- Coverage metrics carrying a given risk-weighted coverage (all other
fields empty). -/
def mkCovMetrics (rwc : ℤ) : CoverageMetrics :=
  { totalFeatures := 0
    testedFeatures := 0
    coverageByRisk := fun _ => ⟨0, 0, 0, []⟩
    overallCoverage := 0
    riskWeightedCoverage := rwc
    gaps := [] }

/-- A quality vector whose overall score is 90. -/
def qm90 : QualityMetrics := ⟨90, 90, 90, 90, 90, 90, []⟩

/-- Confidence-scorer input giving component scores
testPassRate 60, riskCoverage 90, testQuality 90, humanValidationRate 90. -/
def c1input : ReleaseConfidenceInput :=
  { testResults := ⟨10, 6, 4, 0⟩
    coverageMetrics := mkCovMetrics 90
    qualityMetrics := [qm90]
    validationStats := ⟨10, 9, 1, 0⟩ }

/-- The component scores 60/90/90/90 named by the spec's release-confidence
scenario. -/
def comps6090 : ConfidenceComponents :=
  { testPassRate := ⟨60, 0.4, 24, .fair⟩
    riskCoverage := ⟨90, 0.3, 27, .excellent⟩
    testQuality := ⟨90, 0.2, 18, .excellent⟩
    humanValidationRate := ⟨90, 0.1, 9, .excellent⟩ }

/-- Confidence-scorer input with no quality vectors and no validations. -/
def c8input : ReleaseConfidenceInput :=
  { testResults := ⟨10, 10, 0, 0⟩
    coverageMetrics := mkCovMetrics 80
    qualityMetrics := []
    validationStats := ⟨0, 0, 0, 0⟩ }

/-- A confidence score whose only sub-threshold component is a test-quality
score of 65 (both critical gates pass). -/
def conf65 : ReleaseConfidenceScore :=
  { overallScore := 80
    components :=
      { testPassRate := ⟨90, 0.4, 36, .excellent⟩
        riskCoverage := ⟨85, 0.3, 25.5, .excellent⟩
        testQuality := ⟨65, 0.2, 13, .fair⟩
        humanValidationRate := ⟨100, 0.1, 10, .excellent⟩ }
    recommendation := .proceedWithCaution
    details := "" }

/-- A confidence score whose test-pass-rate component is 70 (below the
critical 80 threshold). -/
def conf70 : ReleaseConfidenceScore :=
  { overallScore := 78
    components :=
      { testPassRate := ⟨70, 0.4, 28, .fair⟩
        riskCoverage := ⟨85, 0.3, 25.5, .excellent⟩
        testQuality := ⟨80, 0.2, 16, .good⟩
        humanValidationRate := ⟨100, 0.1, 10, .excellent⟩ }
    recommendation := .blocked
    details := "" }

/-- A critical-risk classification with score 90. -/
def criticalClassification : RiskClassification :=
  { featureName := "Checkout"
    riskLevel := .critical
    riskScore := 90
    riskFactors := []
    businessImpact := "critical"
    technicalComplexity := "high"
    changeFrequency := "medium" }

/-- A single fully tested critical feature: every feature is tested but three
of the four risk buckets are empty. -/
def c3maps : List FeatureTestMapping :=
  [⟨"Checkout", criticalClassification, ["checkout.cy.ts"], true⟩]

/-- A classification at the given risk level (used to populate buckets). -/
def classifiedAs (lvl : RiskLevel) : RiskClassification :=
  { featureName := "f"
    riskLevel := lvl
    riskScore := 50
    riskFactors := []
    businessImpact := "medium"
    technicalComplexity := "medium"
    changeFrequency := "medium" }

/-- Four tested features, one per risk level. -/
def c3mapsFull : List FeatureTestMapping :=
  [⟨"a", classifiedAs .critical, ["a.cy.ts"], true⟩,
   ⟨"b", classifiedAs .high, ["b.cy.ts"], true⟩,
   ⟨"c", classifiedAs .medium, ["c.cy.ts"], true⟩,
   ⟨"d", classifiedAs .low, ["d.cy.ts"], true⟩]

/-- A risk configuration whose first entry has the malformed regex pattern
`[` (in JavaScript, `new RegExp('[', 'i')` throws a `SyntaxError`). -/
def c4config : RiskConfig :=
  { features :=
      [⟨"bad entry", "[", .high, "high", "high", "high"⟩,
       ⟨"checkout", "checkout", .critical, "critical", "high", "medium"⟩]
    defaultRiskLevel := .medium }

/-- Test source whose only `it(` description is 17 characters long (shorter
than 20, but its whole regex match `it('…'` is 22 characters, longer than 20). -/
def c6input : String := "it(\x27abcdefghijklmnopq\x27)"

/-- A validation session with exactly one (rejected) decision. -/
def c10decisions : List ValidationDecision :=
  [⟨"t1", false, some .other, some "weak assertions", 0, "alice"⟩]

/-- Five historical rejection records, all with reason `other`. -/
def c10records : List RejectionRecord :=
  [⟨"h1", .other, "c1", -3, "bob"⟩,
   ⟨"h2", .other, "c2", -3, "bob"⟩,
   ⟨"h3", .other, "c3", -2, "bob"⟩,
   ⟨"h4", .other, "c4", -1, "bob"⟩,
   ⟨"h5", .other, "c5", 0, "bob"⟩]

/-- A two-decision session for the trend witness: one approval and one
rejection on the same day. -/
def c9decisions : List ValidationDecision :=
  [⟨"t1", false, some .poorSelectors, some "bad", 100, "alice"⟩,
   ⟨"t2", true, none, none, 100, "alice"⟩]

/-! ## Helper lemmas -/

/-- Clamping `max 0` keeps a value that is at most 100 inside `[0, 100]`. -/
theorem max0_bounds (x : ℤ) (h : x ≤ 100) : 0 ≤ max 0 x ∧ max 0 x ≤ 100 :=
  ⟨le_max_left 0 x, max_le (by norm_num) h⟩

/-- Membership in `insertAfterLe` is membership in the original list or
being the inserted element. -/
theorem mem_insertAfterLe {le : α → α → Bool} {x y : α} {l : List α} :
    y ∈ insertAfterLe le x l ↔ y = x ∨ y ∈ l := by
  induction l with
  | nil => simp [insertAfterLe]
  | cons z t ih =>
    by_cases h : le z x = true
    · simp only [insertAfterLe, h, if_true, List.mem_cons, ih]
      tauto
    · simp only [insertAfterLe, h, if_false, Bool.false_eq_true, List.mem_cons]

/-- Membership is preserved by the stable sort. -/
theorem mem_stableSortBy {le : α → α → Bool} {y : α} {l : List α} :
    y ∈ stableSortBy le l ↔ y ∈ l := by
  suffices h : ∀ acc : List α,
      (y ∈ l.foldl (fun acc x => insertAfterLe le x acc) acc ↔ y ∈ acc ∨ y ∈ l) by
    simpa [stableSortBy] using h []
  induction l with
  | nil => intro acc; simp
  | cons z t ih =>
    intro acc
    simp only [List.foldl_cons, ih, mem_insertAfterLe, List.mem_cons]
    tauto

/-! ## Claim theorems -/

/-- C4: the spec requires that a malformed regex pattern in the risk
configuration must not abort classification — the bad entry should be
skipped.  The code, however, calls `new RegExp(feature.pattern, 'i')` inside
`Array.prototype.find` with no try/catch, so the thrown `SyntaxError`
propagates out of `classifyFeature`: with a configuration whose first entry
has the malformed pattern `[`, classifying the feature `checkout` (which the
second, well-formed entry would match) produces an error instead of a
classification. -/
theorem classifyFeature_throws_on_malformed_pattern :
    classifyFeature jsRegexCompileStub c4config "checkout" RiskContext.empty =
      .error "SyntaxError: Invalid regular expression" := rfl

/-- C7: when no configuration entry matches the feature name and the context
carries no riskLevel override, `classifyFeature` derives the risk level from
the risk score through `determineRiskLevel`, whose breakpoints 85/65/40
partition all scores with no gaps (in particular 85 ↦ critical, 84 ↦ high,
65 ↦ high, 64 ↦ medium, 40 ↦ medium, 39 ↦ low). -/
theorem classifyFeature_level_from_breakpoints
    (compile : String → Option (String → Bool)) (cfg : RiskConfig) (name : String)
    (ctx : RiskContext)
    (hfind : findMatchingConfig compile cfg.features name = .ok none)
    (hctx : ctx.riskLevel = none) :
    (∃ r, classifyFeature compile cfg name ctx = .ok r ∧
      r.riskLevel = determineRiskLevel r.riskScore) ∧
    (∀ s : ℤ,
      (85 ≤ s → determineRiskLevel s = .critical) ∧
      (65 ≤ s → s < 85 → determineRiskLevel s = .high) ∧
      (40 ≤ s → s < 65 → determineRiskLevel s = .medium) ∧
      (s < 40 → determineRiskLevel s = .low)) ∧
    determineRiskLevel 85 = .critical ∧ determineRiskLevel 84 = .high ∧
    determineRiskLevel 65 = .high ∧ determineRiskLevel 64 = .medium ∧
    determineRiskLevel 40 = .medium ∧ determineRiskLevel 39 = .low := by
  refine ⟨?_, ?_, by decide, by decide, by decide, by decide, by decide, by decide⟩
  · simp only [classifyFeature, hfind]
    refine ⟨_, rfl, ?_⟩
    simp [hctx, Option.orElse]
  · intro s
    refine ⟨fun h1 => ?_, fun h1 h2 => ?_, fun h1 h2 => ?_, fun h1 => ?_⟩
    · rw [determineRiskLevel, if_pos h1]
    · rw [determineRiskLevel, if_neg (by omega), if_pos h1]
    · rw [determineRiskLevel, if_neg (by omega), if_neg (by omega), if_pos h1]
    · rw [determineRiskLevel, if_neg (by omega), if_neg (by omega), if_neg (by omega)]

/-- C7 witness: with an empty configuration and an empty context, the
classifier returns a classification whose level is derived from its score. -/
theorem classifyFeature_level_from_breakpoints_witness :
    ∃ r, classifyFeature jsRegexCompileStub ⟨[], .medium⟩ "checkout" RiskContext.empty = .ok r ∧
      r.riskLevel = determineRiskLevel r.riskScore :=
  (classifyFeature_level_from_breakpoints jsRegexCompileStub ⟨[], .medium⟩ "checkout"
    RiskContext.empty rfl rfl).1

/-- C8: the confidence scorer degrades soft-absent input instead of failing —
an empty quality-metrics list yields the test-quality component
(score 0, weight 0.2, weighted score 0, status poor), and zero validations
yield the human-validation component (score 100, weight 0.1, weighted score
10, status excellent). -/
theorem calculateConfidence_soft_absence (input : ReleaseConfidenceInput) :
    (input.qualityMetrics = [] →
      (calculateConfidence input).components.testQuality =
        { score := 0, weight := 0.2, weightedScore := 0, status := .poor }) ∧
    (input.validationStats.totalValidations = 0 →
      (calculateConfidence input).components.humanValidationRate =
        { score := 100, weight := 0.1, weightedScore := 100 * 0.1, status := .excellent }) := by
  constructor
  · intro h
    show calculateTestQuality input.qualityMetrics = _
    rw [h]
    rfl
  · intro h
    show calculateHumanValidationRate input.validationStats = _
    rw [calculateHumanValidationRate, if_pos h]

/-- C8 witness: the defaults at a concrete input with no quality vectors and
no validations. -/
theorem calculateConfidence_soft_absence_witness :
    (calculateConfidence c8input).components.testQuality =
        { score := 0, weight := 0.2, weightedScore := 0, status := .poor } ∧
      (calculateConfidence c8input).components.humanValidationRate =
        { score := 100, weight := 0.1, weightedScore := 100 * 0.1, status := .excellent } :=
  ⟨(calculateConfidence_soft_absence c8input).1 rfl,
   (calculateConfidence_soft_absence c8input).2 rfl⟩

/-- C1: `calculateConfidence` recommends `blocked` whenever the test-pass-rate
component score is below 80 or the risk-coverage component score is below 70,
regardless of the overall score; only otherwise is the recommendation mapped
from the overall score through the 85/70/60 breakpoints.  In particular the
component scores 60/90/90/90 force `blocked` for every overall score. -/
theorem calculateConfidence_blocking_override (input : ReleaseConfidenceInput) :
    ((calculateConfidence input).components.testPassRate.score < 80 ∨
        (calculateConfidence input).components.riskCoverage.score < 70 →
      (calculateConfidence input).recommendation = .blocked) ∧
    (80 ≤ (calculateConfidence input).components.testPassRate.score →
      70 ≤ (calculateConfidence input).components.riskCoverage.score →
      (calculateConfidence input).recommendation =
        (if 85 ≤ (calculateConfidence input).overallScore then .readyToRelease
         else if 70 ≤ (calculateConfidence input).overallScore then .proceedWithCaution
         else if 60 ≤ (calculateConfidence input).overallScore then .notRecommended
         else .blocked)) ∧
    (∀ overall : ℤ, determineRecommendation overall comps6090 = .blocked) := by
  have hrec : (calculateConfidence input).recommendation =
      determineRecommendation (calculateConfidence input).overallScore
        (calculateConfidence input).components := rfl
  refine ⟨?_, ?_, ?_⟩
  · intro h
    rw [hrec, determineRecommendation]
    rcases h with h | h
    · rw [if_pos h]
    · by_cases h1 : (calculateConfidence input).components.testPassRate.score < 80
      · rw [if_pos h1]
      · rw [if_neg h1, if_pos h]
  · intro h1 h2
    rw [hrec, determineRecommendation, if_neg (by omega), if_neg (by omega)]
  · intro overall
    rw [determineRecommendation, if_pos (by norm_num [comps6090])]

/-- C1 witness: the concrete input with pass rate 60 % and component scores
60/90/90/90 is blocked. -/
theorem calculateConfidence_blocking_override_witness :
    (calculateConfidence c1input).recommendation = .blocked :=
  (calculateConfidence_blocking_override c1input).1 (Or.inl (by
    show (calculateTestPassRate c1input.testResults).score < 80
    norm_num [calculateTestPassRate, c1input, jsRound]))

/-- Bounds for the syntax sub-score. -/
theorem checkSyntaxOf_bounds (t : String) : 0 ≤ (checkSyntaxOf t).1 ∧ (checkSyntaxOf t).1 ≤ 100 := by
  unfold checkSyntaxOf
  dsimp only
  exact max0_bounds _ (by split_ifs <;> norm_num)

/-- Bounds for the coverage sub-score. -/
theorem checkCoverageOf_bounds (t : String) :
    0 ≤ (checkCoverageOf t).1 ∧ (checkCoverageOf t).1 ≤ 100 := by
  unfold checkCoverageOf
  dsimp only
  exact max0_bounds _ (by split_ifs <;> norm_num)

/-- Bounds for the assertion sub-score. -/
theorem checkAssertionsOf_bounds (t : String) :
    0 ≤ (checkAssertionsOf t).1 ∧ (checkAssertionsOf t).1 ≤ 100 := by
  unfold checkAssertionsOf
  dsimp only
  exact max0_bounds _ (by split_ifs <;> norm_num)

/-- Bounds for the maintainability sub-score. -/
theorem checkMaintainabilityOf_bounds (t : String) :
    0 ≤ (checkMaintainabilityOf t).1 ∧ (checkMaintainabilityOf t).1 ≤ 100 := by
  unfold checkMaintainabilityOf
  dsimp only
  exact max0_bounds _ (by split_ifs <;> norm_num)

/-- Bounds for the best-practices sub-score. -/
theorem checkBestPracticesOf_bounds (t : String) :
    0 ≤ (checkBestPracticesOf t).1 ∧ (checkBestPracticesOf t).1 ≤ 100 := by
  unfold checkBestPracticesOf
  dsimp only
  exact max0_bounds _ (by split_ifs <;> norm_num)

/-- C5: for every input source text, each of the five sub-scores of
`scoreTest` lies in `[0, 100]`, and the overall score is the 20/25/25/15/15
weighted sum of the sub-scores, rounded to the nearest integer. -/
theorem scoreTest_bounds_and_weighted_overall (t : String) :
    (0 ≤ (scoreTest t).syntaxScore ∧ (scoreTest t).syntaxScore ≤ 100) ∧
    (0 ≤ (scoreTest t).coverageScore ∧ (scoreTest t).coverageScore ≤ 100) ∧
    (0 ≤ (scoreTest t).assertionScore ∧ (scoreTest t).assertionScore ≤ 100) ∧
    (0 ≤ (scoreTest t).maintainabilityScore ∧ (scoreTest t).maintainabilityScore ≤ 100) ∧
    (0 ≤ (scoreTest t).bestPracticesScore ∧ (scoreTest t).bestPracticesScore ≤ 100) ∧
    (scoreTest t).overallScore =
      jsRound (((scoreTest t).syntaxScore : ℚ) * 0.20 + ((scoreTest t).coverageScore : ℚ) * 0.25 +
        ((scoreTest t).assertionScore : ℚ) * 0.25 +
        ((scoreTest t).maintainabilityScore : ℚ) * 0.15 +
        ((scoreTest t).bestPracticesScore : ℚ) * 0.15) :=
  ⟨checkSyntaxOf_bounds t, checkCoverageOf_bounds t, checkAssertionsOf_bounds t,
   checkMaintainabilityOf_bounds t, checkBestPracticesOf_bounds t, rfl⟩

/-- C6 (amended): the maintainability check deducts 5 points and records the
short-description info issue exactly when some *whole regex match*
`it('description'` — which carries 5 extra characters beyond the description
text — has length at most 20, i.e. exactly when some test-case description is
shorter than 16 characters (not 20 as the claim states). -/
theorem checkMaintainability_short_desc_iff (t : String) :
    shortDescriptionIssue ∈ (checkMaintainabilityOf t).2 ↔
      ∃ d ∈ itDescriptions t, d.length ≤ 20 := by
  have n1 : shortDescriptionIssue ≠
      ⟨.info, "maintainability", "Consider adding more comments for clarity"⟩ := by decide
  have n2 : shortDescriptionIssue ≠
      ⟨.warning, "maintainability", "Magic numbers detected. Consider using constants."⟩ := by
    decide
  have n3 : shortDescriptionIssue ≠
      ⟨.warning, "maintainability",
        "Hardcoded URLs found. Use baseUrl or environment variables."⟩ := by decide
  unfold checkMaintainabilityOf
  dsimp only
  split_ifs with h1 h2 h3 h4 <;>
    simp_all [List.mem_append, List.all_eq_true, not_lt]

/-- C6 counterexample: the source `it('abcdefghijklmnopq')` has a test-case
description of length 17 (shorter than 20 characters), yet the maintainability
check applies no deduction and records no issue, because the code compares the
length of the whole match `it('abcdefghijklmnopq'` (22 characters) against 20. -/
theorem checkMaintainability_short_desc_cx :
    (∃ desc : String, c6input = "it(\x27" ++ desc ++ "\x27)" ∧ desc.length = 17 ∧
      desc.length < 20) ∧
    shortDescriptionIssue ∉ (checkMaintainabilityOf c6input).2 := by
  constructor
  · exact ⟨"abcdefghijklmnopq", by decide, by decide, by decide⟩
  · decide

/-- A risk bucket in which no feature is tested has coverage percentage 0. -/
theorem coveragePercentage_zero_of_untested (ms : List FeatureTestMapping) (lvl : RiskLevel)
    (h : ∀ m ∈ ms, m.isTested = false) :
    (calculateRiskLevelCoverage ms lvl).coveragePercentage = 0 := by
  unfold calculateRiskLevelCoverage
  dsimp only
  have htested :
      (ms.filter (fun m => m.riskClassification.riskLevel == lvl)).filter
        (fun m => m.isTested) = [] := by
    rw [List.filter_eq_nil_iff]
    intro a ha
    simp [h a (List.mem_filter.mp ha).1]
  rw [htested]
  split_ifs <;> simp

/-- A nonempty risk bucket in which every feature is tested has coverage
percentage 100. -/
theorem coveragePercentage_100_of_tested (ms : List FeatureTestMapping) (lvl : RiskLevel)
    (h : ∀ m ∈ ms, m.isTested = true)
    (hn : 0 < (calculateRiskLevelCoverage ms lvl).totalFeatures) :
    (calculateRiskLevelCoverage ms lvl).coveragePercentage = 100 := by
  have htested :
      (ms.filter (fun m => m.riskClassification.riskLevel == lvl)).filter
        (fun m => m.isTested) = ms.filter (fun m => m.riskClassification.riskLevel == lvl) := by
    rw [List.filter_eq_self]
    intro a ha
    simp [h a (List.mem_filter.mp ha).1]
  have hn2 : 0 < (ms.filter (fun m => m.riskClassification.riskLevel == lvl)).length := hn
  unfold calculateRiskLevelCoverage
  dsimp only
  rw [htested, if_pos hn2, div_self (by exact_mod_cast Nat.pos_iff_ne_zero.mp hn2)]
  norm_num

/-- C3 (amended): `riskWeightedCoverage` is the rounded 0.4/0.3/0.2/0.1 blend
of the four per-level percentages; a level with no features contributes
percentage 0 (never NaN); if no feature is tested every percentage and the
blend are 0; and if every feature is tested **and every risk level has at
least one feature** the blend is 100 (with an empty bucket the blend falls
short of 100 even when everything is tested, because an empty bucket
contributes 0, not 100). -/
theorem analyzeCoverage_riskWeighted (ms : List FeatureTestMapping) :
    ((analyzeCoverage ms).riskWeightedCoverage =
      jsRound
        (((analyzeCoverage ms).coverageByRisk .critical).coveragePercentage * 0.4 +
         ((analyzeCoverage ms).coverageByRisk .high).coveragePercentage * 0.3 +
         ((analyzeCoverage ms).coverageByRisk .medium).coveragePercentage * 0.2 +
         ((analyzeCoverage ms).coverageByRisk .low).coveragePercentage * 0.1)) ∧
    (∀ lvl, ((analyzeCoverage ms).coverageByRisk lvl).totalFeatures = 0 →
      ((analyzeCoverage ms).coverageByRisk lvl).coveragePercentage = 0) ∧
    ((∀ m ∈ ms, m.isTested = false) →
      (∀ lvl, ((analyzeCoverage ms).coverageByRisk lvl).coveragePercentage = 0) ∧
      (analyzeCoverage ms).riskWeightedCoverage = 0) ∧
    ((∀ m ∈ ms, m.isTested = true) →
      (∀ lvl, 0 < ((analyzeCoverage ms).coverageByRisk lvl).totalFeatures) →
      (analyzeCoverage ms).riskWeightedCoverage = 100) := by
  have hby : ∀ lvl, (analyzeCoverage ms).coverageByRisk lvl =
      calculateRiskLevelCoverage ms lvl := fun _ => rfl
  refine ⟨rfl, ?_, ?_, ?_⟩
  · intro lvl h0
    rw [hby] at h0 ⊢
    unfold calculateRiskLevelCoverage at h0 ⊢
    dsimp only at h0 ⊢
    rw [if_neg (by omega)]
  · intro h
    have hpct : ∀ lvl, (calculateRiskLevelCoverage ms lvl).coveragePercentage = 0 :=
      fun lvl => coveragePercentage_zero_of_untested ms lvl h
    refine ⟨fun lvl => hpct lvl, ?_⟩
    show calculateRiskWeightedCoverage _ = 0
    unfold calculateRiskWeightedCoverage
    rw [hpct .critical, hpct .high, hpct .medium, hpct .low]
    norm_num [jsRound]
  · intro h hn
    have hpct : ∀ lvl, (calculateRiskLevelCoverage ms lvl).coveragePercentage = 100 :=
      fun lvl => coveragePercentage_100_of_tested ms lvl h (hn lvl)
    show calculateRiskWeightedCoverage _ = 100
    unfold calculateRiskWeightedCoverage
    rw [hpct .critical, hpct .high, hpct .medium, hpct .low]
    norm_num [jsRound]

/-- C3 counterexample: a single tested critical feature — every feature is
tested, yet the risk-weighted coverage is 40, not 100, because the three
empty buckets contribute 0 % each. -/
theorem analyzeCoverage_all_tested_not_100 :
    (∀ m ∈ c3maps, m.isTested = true) ∧
    (analyzeCoverage c3maps).riskWeightedCoverage = 40 ∧
    (analyzeCoverage c3maps).riskWeightedCoverage ≠ 100 := by
  have hcrit : (calculateRiskLevelCoverage c3maps .critical).coveragePercentage = 100 :=
    coveragePercentage_100_of_tested c3maps .critical (by decide) (by decide)
  have hempty : ∀ lvl, lvl ≠ RiskLevel.critical →
      (calculateRiskLevelCoverage c3maps lvl).coveragePercentage = 0 := by
    intro lvl hlvl
    unfold calculateRiskLevelCoverage
    dsimp only
    cases lvl
    · exact absurd rfl hlvl
    · rw [if_neg (by decide)]
    · rw [if_neg (by decide)]
    · rw [if_neg (by decide)]
  have h40 : (analyzeCoverage c3maps).riskWeightedCoverage = 40 := by
    show calculateRiskWeightedCoverage _ = 40
    unfold calculateRiskWeightedCoverage
    rw [hcrit, hempty .high (by decide), hempty .medium (by decide), hempty .low (by decide)]
    norm_num [jsRound]
  exact ⟨by decide, h40, by rw [h40]; decide⟩

/-- C3 witness: four tested features, one per risk level — the amended
all-tested clause yields risk-weighted coverage 100. -/
theorem analyzeCoverage_riskWeighted_witness :
    (analyzeCoverage c3mapsFull).riskWeightedCoverage = 100 :=
  (analyzeCoverage_riskWeighted c3mapsFull).2.2.2 (by decide) (by intro lvl; cases lvl <;> decide)

/-- Head of an append is the head of a non-empty left part. -/
theorem head?_append_left {α : Type} {l1 l2 : List α} {c : α} (h : l1.head? = some c) :
    (l1 ++ l2).head? = some c := by
  cases l1 with
  | nil => simp at h
  | cons a t => simpa using h

/-- Head character of an appended string. -/
theorem str_head_append (a b : String) {c : Char} (h : a.data.head? = some c) :
    (a ++ b).data.head? = some c := by
  rw [String.data_append]
  exact head?_append_left h

/-- Head character of a five-part appended string. -/
theorem str_head_append4 (a b c d e : String) {ch : Char} (h : a.data.head? = some ch) :
    (a ++ b ++ c ++ d ++ e).data.head? = some ch :=
  str_head_append _ _ (str_head_append _ _ (str_head_append _ _ (str_head_append _ _ h)))

/-- Strings whose head characters differ are different. -/
theorem str_ne_of_head {a b : String} {c1 c2 : Char} (ha : a.data.head? = some c1)
    (hb : b.data.head? = some c2) (hne : c1 ≠ c2) : a ≠ b := by
  intro he
  rw [he, hb] at ha
  exact hne (Option.some.inj ha).symm

/-- `prValidate`'s overall verdict is the conjunction of the two critical
gates' checks. -/
theorem prValidate_overallPassed (c : ReleaseConfidenceScore) :
    (prValidate c).overallPassed =
      (decide (80 ≤ c.components.testPassRate.score) &&
        decide (80 ≤ c.components.riskCoverage.score)) := by
  cases hd1 : decide (80 ≤ c.components.testPassRate.score) <;>
    cases hd2 : decide (80 ≤ c.components.riskCoverage.score) <;>
      simp [prValidate, validateTestPassRateGate, validateRiskCoverageGate,
        validateTestQualityGate, validateOverallConfidenceGate, hd1, hd2]

/-- C2: `prValidate` runs exactly the four named gates with thresholds
80/80/70/75 and severities critical/critical/high/high; `overallPassed` holds
iff no critical gate failed (equivalently, iff both critical scores meet
their thresholds); a failed non-critical gate's message goes to `warnings`
and never to `blockers`.  Concretely, a test-quality score of 65 with both
critical gates passing leaves `overallPassed` true with the failure message
in `warnings`, while a test-pass-rate score of 70 forces `overallPassed`
false with its message in `blockers`. -/
theorem prValidate_gate_semantics (c : ReleaseConfidenceScore) :
    ((prValidate c).gates.map (fun g => (g.gateName, g.threshold, g.severity)) =
      [("Test Pass Rate", 80, GateSeverity.critical),
       ("Risk Coverage", 80, GateSeverity.critical),
       ("Test Quality", 70, GateSeverity.high),
       ("Overall Confidence", 75, GateSeverity.high)]) ∧
    ((prValidate c).overallPassed = true ↔
      80 ≤ c.components.testPassRate.score ∧ 80 ≤ c.components.riskCoverage.score) ∧
    ((prValidate c).overallPassed = true ↔
      ∀ g ∈ (prValidate c).gates, g.severity = .critical → g.passed = true) ∧
    (∀ g ∈ (prValidate c).gates, g.passed = false → g.severity ≠ .critical →
      g.message ∈ (prValidate c).warnings ∧ g.message ∉ (prValidate c).blockers) ∧
    ((prValidate conf65).overallPassed = true ∧
      (validateTestQualityGate 65 70).message ∈ (prValidate conf65).warnings ∧
      (prValidate conf65).blockers = []) ∧
    ((prValidate conf70).overallPassed = false ∧
      (prValidate conf70).blockers = [(validateTestPassRateGate 70 80).message]) := by
  refine ⟨rfl, ?_, ?_, ?_, by decide, by decide⟩
  · rw [prValidate_overallPassed]
    simp [Bool.and_eq_true, decide_eq_true_eq]
  · rw [prValidate_overallPassed]
    constructor
    · intro h g hg hcrit
      rw [Bool.and_eq_true] at h
      obtain ⟨h1, h2⟩ := h
      have hgl : g = validateTestPassRateGate c.components.testPassRate.score 80 ∨
          g = validateRiskCoverageGate c.components.riskCoverage.score 80 ∨
          g = validateTestQualityGate c.components.testQuality.score 70 ∨
          g = validateOverallConfidenceGate c.overallScore 75 := by
        simpa [prValidate] using hg
      rcases hgl with rfl | rfl | rfl | rfl
      · exact h1
      · exact h2
      · exact absurd hcrit (by simp [validateTestQualityGate])
      · exact absurd hcrit (by simp [validateOverallConfidenceGate])
    · intro h
      rw [Bool.and_eq_true]
      refine ⟨?_, ?_⟩
      · exact h (validateTestPassRateGate c.components.testPassRate.score 80)
          (by simp [prValidate]) rfl
      · exact h (validateRiskCoverageGate c.components.riskCoverage.score 80)
          (by simp [prValidate]) rfl
  · intro g hg hfail hsev
    constructor
    · have hmem : g ∈ (prValidate c).gates.filter
          (fun g => !g.passed && g.severity != .critical) :=
        List.mem_filter.mpr ⟨hg, by simp [hfail, bne_iff_ne, hsev]⟩
      exact List.mem_map_of_mem _ hmem
    · intro hmem
      obtain ⟨g2, hg2, he⟩ := List.mem_map.mp hmem
      obtain ⟨hg2mem, hg2p⟩ := List.mem_filter.mp hg2
      rw [Bool.and_eq_true] at hg2p
      obtain ⟨hg2fl, hg2cr⟩ := hg2p
      have hg2fail : g2.passed = false := by simpa using hg2fl
      have hg2crit : g2.severity = GateSeverity.critical := of_decide_eq_true hg2cr
      have hgl : g = validateTestPassRateGate c.components.testPassRate.score 80 ∨
          g = validateRiskCoverageGate c.components.riskCoverage.score 80 ∨
          g = validateTestQualityGate c.components.testQuality.score 70 ∨
          g = validateOverallConfidenceGate c.overallScore 75 := by
        simpa [prValidate] using hg
      have hg2l : g2 = validateTestPassRateGate c.components.testPassRate.score 80 ∨
          g2 = validateRiskCoverageGate c.components.riskCoverage.score 80 ∨
          g2 = validateTestQualityGate c.components.testQuality.score 70 ∨
          g2 = validateOverallConfidenceGate c.overallScore 75 := by
        simpa [prValidate] using hg2mem
      have hghead : g.message.data.head? = some '⚠' := by
        rcases hgl with rfl | rfl | rfl | rfl
        · exact absurd rfl hsev
        · exact absurd rfl hsev
        · have hp : decide (70 ≤ c.components.testQuality.score) = false := hfail
          show (if (decide (70 ≤ c.components.testQuality.score)) = true then _ else
            "⚠️ Test quality (" ++ toString c.components.testQuality.score ++
              "/100) below threshold (" ++ toString (70 : ℤ) ++ "/100)").data.head? = _
          rw [hp]
          simp only [Bool.false_eq_true, if_false]
          exact str_head_append4 _ _ _ _ _ rfl
        · have hp : decide (75 ≤ c.overallScore) = false := hfail
          show (if (decide (75 ≤ c.overallScore)) = true then _ else
            "⚠️ Release confidence (" ++ toString c.overallScore ++
              "/100) below threshold (" ++ toString (75 : ℤ) ++ "/100)").data.head? = _
          rw [hp]
          simp only [Bool.false_eq_true, if_false]
          exact str_head_append4 _ _ _ _ _ rfl
      have hg2head : g2.message.data.head? = some '❌' := by
        rcases hg2l with rfl | rfl | rfl | rfl
        · have hp : decide (80 ≤ c.components.testPassRate.score) = false := hg2fail
          show (if (decide (80 ≤ c.components.testPassRate.score)) = true then _ else
            "❌ Test pass rate (" ++ toString c.components.testPassRate.score ++
              "%) below threshold (" ++ toString (80 : ℤ) ++ "%)").data.head? = _
          rw [hp]
          simp only [Bool.false_eq_true, if_false]
          exact str_head_append4 _ _ _ _ _ rfl
        · have hp : decide (80 ≤ c.components.riskCoverage.score) = false := hg2fail
          show (if (decide (80 ≤ c.components.riskCoverage.score)) = true then _ else
            "❌ Risk coverage (" ++ toString c.components.riskCoverage.score ++
              "/100) below threshold (" ++ toString (80 : ℤ) ++ "/100)").data.head? = _
          rw [hp]
          simp only [Bool.false_eq_true, if_false]
          exact str_head_append4 _ _ _ _ _ rfl
        · exact absurd hg2crit (by simp [validateTestQualityGate])
        · exact absurd hg2crit (by simp [validateOverallConfidenceGate])
      exact str_ne_of_head hg2head hghead (by decide) he

/-- C2 witness: for the concrete confidence with test quality 65, the failed
high-severity gate's message is in the warnings and not in the blockers. -/
theorem prValidate_gate_semantics_witness :
    (validateTestQualityGate 65 70).message ∈ (prValidate conf65).warnings ∧
      (validateTestQualityGate 65 70).message ∉ (prValidate conf65).blockers :=
  (prValidate_gate_semantics conf65).2.2.2.1 (validateTestQualityGate 65 70)
    (by decide) (by decide) (by decide)

/-- C9: the trend series always has exactly 30 entries, is independent of the
historical records, runs oldest-first over the 30 preceding calendar days
(entry `j` covers day `today + j - 29`), counts only decisions whose
timestamp falls on the entry's day, and reports rate 0 (never NaN) for a day
with no decisions. -/
theorem calculateTrendData_spec (ds : List ValidationDecision) (rs : List RejectionRecord)
    (today : ℤ) :
    (calculateTrendData ds rs today).length = 30 ∧
    (∀ rs' : List RejectionRecord,
      calculateTrendData ds rs' today = calculateTrendData ds rs today) ∧
    (∀ j : ℕ, j < 30 →
      ∃ p, (calculateTrendData ds rs today)[j]? = some p ∧
        p.date = today + (j : ℤ) - 29 ∧
        p.rejectionCount =
          ((ds.filter (fun d => d.reviewedAt == p.date)).filter (fun d => !d.approved)).length ∧
        p.approvalCount =
          ((ds.filter (fun d => d.reviewedAt == p.date)).filter (fun d => d.approved)).length ∧
        ((ds.filter (fun d => d.reviewedAt == p.date)).length = 0 → p.rejectionRate = 0)) := by
  refine ⟨by simp [calculateTrendData], fun rs' => rfl, ?_⟩
  intro j hj
  have hidx : (calculateTrendData ds rs today)[j]? =
      some
        (let i : ℕ := 29 - j
         let date := today - (i : ℤ)
         let dayDecisions := ds.filter (fun d => d.reviewedAt == date)
         let rejectionCount := (dayDecisions.filter (fun d => !d.approved)).length
         let approvalCount := (dayDecisions.filter (fun d => d.approved)).length
         let total := dayDecisions.length
         { date := date
           rejectionCount := rejectionCount
           approvalCount := approvalCount
           rejectionRate :=
             if total > 0 then ((rejectionCount : ℚ) / (total : ℚ)) * 100 else 0 }) := by
    rw [calculateTrendData, List.getElem?_map, List.getElem?_range hj]
    rfl
  have hdate : today - ((29 - j : ℕ) : ℤ) = today + j - 29 := by omega
  refine ⟨_, hidx, hdate, rfl, rfl, ?_⟩
  intro h0
  have h0b : (ds.filter (fun d => d.reviewedAt == today - ((29 - j : ℕ) : ℤ))).length = 0 := h0
  dsimp only
  exact if_neg (by omega)

/-- C9 witness: at a concrete session with one approval and one rejection on
day 100 and an empty history, the newest trend entry (index 29) covers day
100 with the right counts. -/
theorem calculateTrendData_spec_witness :
    ∃ p, (calculateTrendData c9decisions [] 100)[29]? = some p ∧
      p.date = (100 : ℤ) + ((29 : ℕ) : ℤ) - 29 ∧
      p.rejectionCount =
        ((c9decisions.filter (fun d => d.reviewedAt == p.date)).filter
          (fun d => !d.approved)).length ∧
      p.approvalCount =
        ((c9decisions.filter (fun d => d.reviewedAt == p.date)).filter
          (fun d => d.approved)).length ∧
      ((c9decisions.filter (fun d => d.reviewedAt == p.date)).length = 0 →
        p.rejectionRate = 0) :=
  (calculateTrendData_spec c9decisions [] 100).2.2 29 (by norm_num)

/-- C10: in `calculateStats`, `totalRejections` and `rejectionRate` come only
from the session decisions, while every common pattern's count and example
comments come only from the historical records; a pattern's percentage
divides its historical count by the session's `totalRejections`, so with one
session rejection and five historical `other` records the pattern count (5)
exceeds `totalRejections` (1) and the percentages sum to 500 > 100. -/
theorem calculateStats_spec (ds : List ValidationDecision) (rs : List RejectionRecord)
    (today : ℤ) :
    (calculateStats ds rs today).totalRejections = (ds.filter (fun d => !d.approved)).length ∧
    (calculateStats ds rs today).rejectionRate =
      (if ds.length > 0 then
        (((ds.filter (fun d => !d.approved)).length : ℚ) / (ds.length : ℚ)) * 100
       else 0) ∧
    (∀ reason, (calculateStats ds rs today).rejectionsByReason reason =
      (rs.filter (fun r => r.reason == reason)).length) ∧
    (∀ p ∈ (calculateStats ds rs today).commonPatterns,
      p.count = (rs.filter (fun r => r.reason == p.reason)).length ∧
      p.examples = ((rs.filter (fun r => r.reason == p.reason)).take 3).map
        (fun r => r.comments) ∧
      p.percentage =
        (if (ds.filter (fun d => !d.approved)).length > 0 then
          ((p.count : ℚ) / (((ds.filter (fun d => !d.approved)).length : ℚ))) * 100
         else 0)) ∧
    (∃ p ∈ (calculateStats c10decisions c10records 0).commonPatterns,
      (calculateStats c10decisions c10records 0).totalRejections < p.count) ∧
    ((calculateStats c10decisions c10records 0).commonPatterns.map
      (fun p => p.percentage)).sum > 100 := by
  refine ⟨rfl, rfl, fun reason => rfl, ?_, ?_, ?_⟩
  · intro p hp
    have hp2 := mem_stableSortBy.mp hp
    obtain ⟨hp3, _⟩ := List.mem_filter.mp hp2
    obtain ⟨r, _, rfl⟩ := List.mem_map.mp hp3
    exact ⟨rfl, rfl, rfl⟩
  · refine ⟨mkRejectionPattern c10records 1 .other, ?_, ?_⟩
    · rw [show (calculateStats c10decisions c10records 0).commonPatterns =
        [mkRejectionPattern c10records 1 .other] from rfl]
      exact List.mem_singleton_self _
    · decide
  · rw [show (calculateStats c10decisions c10records 0).commonPatterns =
      [mkRejectionPattern c10records 1 .other] from rfl]
    have hc5 : (c10records.filter (fun r => r.reason == RejectionReason.other)).length = 5 := rfl
    simp [mkRejectionPattern, hc5]

/-- C10 witness: the `other` pattern of the concrete inputs takes its count
and examples from the historical records and its percentage from the
session's rejection total. -/
theorem calculateStats_spec_witness :
    (mkRejectionPattern c10records 1 .other).count =
      (c10records.filter (fun r =>
        r.reason == (mkRejectionPattern c10records 1 .other).reason)).length ∧
    (mkRejectionPattern c10records 1 .other).examples =
      ((c10records.filter (fun r =>
        r.reason == (mkRejectionPattern c10records 1 .other).reason)).take 3).map
          (fun r => r.comments) ∧
    (mkRejectionPattern c10records 1 .other).percentage =
      (if (c10decisions.filter (fun d => !d.approved)).length > 0 then
        (((mkRejectionPattern c10records 1 .other).count : ℚ) /
          (((c10decisions.filter (fun d => !d.approved)).length : ℚ))) * 100
       else 0) :=
  (calculateStats_spec c10decisions c10records 0).2.2.2.1
    (mkRejectionPattern c10records 1 .other)
    (by rw [show (calculateStats c10decisions c10records 0).commonPatterns =
          [mkRejectionPattern c10records 1 .other] from rfl]
        exact List.mem_singleton_self _)
